import Mathlib

/-!
Shallow embedding of `plugins/ModelChecker/ModelChecker.py` (Cura ModelChecker
plugin).  Dimensions and shrinkage percentages are modelled as exact rationals;
the Python `dict` of material shrinkages is an association list; the fallible
dict subscript (which can raise `KeyError`) is modelled with `Option`.
-/

namespace ModelChecker

/-- Threshold from which shrinkage percentage a warning will be issued
(`SHRINKAGE_THRESHOLD = 0.5` in the source; written as the rational 1/2 so
that it evaluates by kernel reduction). -/
def SHRINKAGE_THRESHOLD : ℚ := mkRat 1 2

/-- Horizontal size of a model that would be too large for shrinking materials
(`WARNING_SIZE_XY = 150`). -/
def WARNING_SIZE_XY : ℚ := 150

/-- Vertical size of a model that would be too large for shrinking materials
(`WARNING_SIZE_Z = 100`). -/
def WARNING_SIZE_Z : ℚ := 100

/-- Axis-aligned bounding box of a scene node, as returned by
`node.getBoundingBox()`: the code reads its `width`, `depth` and `height`. -/
structure BoundingBox where
  width : ℚ
  depth : ℚ
  height : ℚ
deriving DecidableEq

/-- A scene node, with the pieces of host state the plugin reads:
`getName()`, the `isSliceable` decoration, the `getActiveExtruderPosition`
decoration, and the bounding box. -/
structure SceneNode where
  name : String
  isSliceable : Bool
  activeExtruderPosition : String
  boundingBox : BoundingBox
deriving DecidableEq

/-- The scene graph: a rooted tree of scene nodes. -/
inductive SceneTree where
  | mk : SceneNode → List SceneTree → SceneTree

/-- Root node of a scene tree. -/
def SceneTree.root : SceneTree → SceneNode
  | .mk n _ => n

/-- Children of the root of a scene tree. -/
def SceneTree.children : SceneTree → List SceneTree
  | .mk _ c => c

mutual
/-- Modelled from the spec: the host application's `DepthFirstIterator` over
the scene graph is not part of this repository; the spec describes the check
as iterating the scene nodes in depth-first traversal order, which we model as
a pre-order traversal. -/
def depthFirst : SceneTree → List SceneNode
  | .mk n children => n :: depthFirstList children

/-- Depth-first traversal of a forest of scene trees, left to right. -/
def depthFirstList : List SceneTree → List SceneNode
  | [] => []
  | t :: ts => depthFirst t ++ depthFirstList ts
end

mutual
/-- Number of occurrences of a given node value in a scene tree. -/
def nodeCount (x : SceneNode) : SceneTree → Nat
  | .mk n children => (if n = x then 1 else 0) + nodeCountList x children

/-- Number of occurrences of a given node value in a forest. -/
def nodeCountList (x : SceneNode) : List SceneTree → Nat
  | [] => 0
  | t :: ts => nodeCount x t + nodeCountList x ts
end

/-- Embedding of `ModelChecker.sliceableNodes`: all nodes of the depth-first
scene traversal whose `isSliceable` decoration holds. -/
def sliceableNodes (t : SceneTree) : List SceneNode :=
  (depthFirst t).filter (fun n => n.isSliceable)

/-- An extruder, exposing the result of
`extruder.material.getProperty("material_shrinkage_percentage", "value")`,
which is `None` when the material defines no shrinkage percentage. -/
structure Extruder where
  materialShrinkage : Option ℚ
deriving DecidableEq

/-- The global container stack: its `extruders` dict, as an association list
from extruder position to extruder, in iteration order. -/
structure GlobalContainerStack where
  extruders : List (String × Extruder)
deriving DecidableEq

/-- Embedding of `ModelChecker.getMaterialShrinkage`: returns the empty dict
when there is no global container stack, and otherwise maps every extruder
position to its material's shrinkage percentage, with `None` replaced by 0. -/
def getMaterialShrinkage : Option GlobalContainerStack → List (String × ℚ)
  | none => []
  | some stack =>
      stack.extruders.map (fun p => (p.1, p.2.materialShrinkage.getD 0))

/-- Python dict subscript `m[k]` on the shrinkage dict: `none` models a
`KeyError`. -/
def dictGet (m : List (String × ℚ)) (k : String) : Option ℚ :=
  (m.find? (fun p => p.1 == k)).map Prod.snd

/-- The bounding-box size test of `checkObjectsForShrinkage`:
`bbox.width >= WARNING_SIZE_XY or bbox.depth >= WARNING_SIZE_XY or
bbox.height >= WARNING_SIZE_Z`. -/
def oversized (b : BoundingBox) : Bool :=
  decide (WARNING_SIZE_XY ≤ b.width) || decide (WARNING_SIZE_XY ≤ b.depth)
    || decide (WARNING_SIZE_Z ≤ b.height)

/-- The loop body of `checkObjectsForShrinkage` over the list of sliceable
nodes: looks up each node's extruder position in the shrinkage dict (a missing
key raises `KeyError`, modelled as `none`), and appends the node to the
warning list when the shrinkage exceeds the threshold and the bounding box is
oversized. -/
def checkLoop (m : List (String × ℚ)) : List SceneNode → Option (List SceneNode)
  | [] => some []
  | n :: rest =>
      match dictGet m n.activeExtruderPosition with
      | none => none
      | some shrinkage =>
          if SHRINKAGE_THRESHOLD < shrinkage then
            if oversized n.boundingBox then
              (checkLoop m rest).map (fun l => n :: l)
            else
              checkLoop m rest
          else
            checkLoop m rest

/-- Embedding of `ModelChecker.checkObjectsForShrinkage`: builds the material
shrinkage dict and folds the check over the sliceable nodes of the scene. -/
def checkObjectsForShrinkage (stack : Option GlobalContainerStack)
    (t : SceneTree) : Option (List SceneNode) :=
  checkLoop (getMaterialShrinkage stack) (sliceableNodes t)

/-- A `UM.Message` popup, with its text and whether it is currently shown. -/
structure Message where
  text : String
  visible : Bool
deriving DecidableEq

/-- Text of the happy message, fixed at construction. -/
def happyMessageText : String :=
  "The Model Checker did not detect any problems with your model / chosen materials combination."

/-- Mutable state of the `ModelChecker` object: the `_has_warnings` flag, the
two messages, and whether `_button_view` has been created. -/
structure CheckerState where
  hasWarnings : Bool
  happyMessage : Message
  cautionMessage : Message
  buttonView : Bool
deriving DecidableEq

/-- State established by `ModelChecker.__init__`: no warnings flagged, both
messages constructed but not shown, caution text empty, no view yet. -/
def initState : CheckerState :=
  { hasWarnings := false
    happyMessage := { text := happyMessageText, visible := false }
    cautionMessage := { text := "", visible := false }
    buttonView := false }

/-- Head of the caution message template, before the interpolated model
names. -/
def cautionHead : String :=
  "Some models may not be printed optimal due to object size and chosen material for models: "

/-- Tail of the caution message template, after the interpolated model
names. -/
def cautionTail : String :=
  ".\nTips that may be useful to improve the print quality:\n1) Use rounded corners\n2) Turn the fan off (only if the are no tiny details on the model)\n3) Use a different material"

/-- The caution message text produced by
`.format(model_names = ", ".join([n.getName() for n in warning_nodes]))`. -/
def cautionText (model_names : String) : String :=
  cautionHead ++ model_names ++ cautionTail

/-- Embedding of the `runChecks` property: runs `checkObjectsForShrinkage`;
when the warning list is non-empty it sets the caution message text to the
template with the node names joined by a comma and returns `True`, otherwise
it returns `False` without touching any state.  A `KeyError` in the check is
propagated as `none`. -/
def runChecks (s : CheckerState) (stack : Option GlobalContainerStack)
    (t : SceneTree) : Option (CheckerState × Bool) :=
  match checkObjectsForShrinkage stack t with
  | none => none
  | some warning_nodes =>
      if warning_nodes.isEmpty then
        some (s, false)
      else
        some
          ({ s with
              cautionMessage :=
                { s.cautionMessage with
                    text := cautionText
                      (String.intercalate ", "
                        (warning_nodes.map SceneNode.name)) } },
            true)

/-- Embedding of `showWarningMessage`: hides the happy message and shows the
caution message. -/
def showWarningMessage (s : CheckerState) : CheckerState :=
  { s with
      happyMessage := { s.happyMessage with visible := false }
      cautionMessage := { s.cautionMessage with visible := true } }

/-- Embedding of `showHappyMessage`: hides the caution message and shows the
happy message. -/
def showHappyMessage (s : CheckerState) : CheckerState :=
  { s with
      cautionMessage := { s.cautionMessage with visible := false }
      happyMessage := { s.happyMessage with visible := true } }

/-- Embedding of the `showWarnings` slot: creates the button view if absent,
then shows the caution message when `_has_warnings` is set and the happy
message otherwise. -/
def showWarnings (s : CheckerState) : CheckerState :=
  let s := if s.buttonView then s else { s with buttonView := true }
  if s.hasWarnings then showWarningMessage s else showHappyMessage s

/-- Spec-side predicate on a node: the shrinkage found for its extruder
position in the shrinkage dict strictly exceeds the warning threshold. -/
def shrinkExceeds (m : List (String × ℚ)) (n : SceneNode) : Bool :=
  match dictGet m n.activeExtruderPosition with
  | some v => decide (SHRINKAGE_THRESHOLD < v)
  | none => false

/-- Spec-side predicate, following the claim's words: some sliceable scene
node has its extruder's material shrinkage strictly above the 0.5 threshold
and a bounding box with width or depth at least 150 or height at least
100. -/
def riskyNodeExists (stack : Option GlobalContainerStack) (t : SceneTree) : Prop :=
  ∃ n ∈ depthFirst t, n.isSliceable = true ∧
    (∃ v, dictGet (getMaterialShrinkage stack) n.activeExtruderPosition = some v ∧
      SHRINKAGE_THRESHOLD < v) ∧
    (WARNING_SIZE_XY ≤ n.boundingBox.width ∨ WARNING_SIZE_XY ≤ n.boundingBox.depth ∨
      WARNING_SIZE_Z ≤ n.boundingBox.height)

/-- Concrete oversized sliceable node assigned to extruder position "0". -/
def sampleBigNode : SceneNode :=
  { name := "big", isSliceable := true, activeExtruderPosition := "0",
    boundingBox := { width := 200, depth := 10, height := 10 } }

/-- Concrete non-sliceable root node. -/
def sampleRoot : SceneNode :=
  { name := "root", isSliceable := false, activeExtruderPosition := "0",
    boundingBox := { width := 0, depth := 0, height := 0 } }

/-- Concrete scene: a root with one oversized sliceable child. -/
def sampleScene : SceneTree := .mk sampleRoot [.mk sampleBigNode []]

/-- Concrete global stack: extruder "0" has a material shrinking by 1
percent, extruder "1" has a material with no shrinkage percentage. -/
def sampleStack : GlobalContainerStack :=
  { extruders := [("0", { materialShrinkage := some 1 }),
                  ("1", { materialShrinkage := none })] }

/-- Checker state produced by `runChecks` from `initState` on the sample
scene and stack: only the caution message text has been set. -/
def sampleRunState : CheckerState :=
  { initState with
      cautionMessage := { text := cautionText "big", visible := false } }

/-- Unfolding lemma: `shrinkExceeds` holds exactly when the dict lookup
succeeds with a value above the threshold. -/
theorem shrinkExceeds_iff (m : List (String × ℚ)) (n : SceneNode) :
    shrinkExceeds m n = true ↔
      ∃ v, dictGet m n.activeExtruderPosition = some v ∧ SHRINKAGE_THRESHOLD < v := by
  unfold shrinkExceeds
  cases hd : dictGet m n.activeExtruderPosition <;> simp [hd]

/-- Unfolding lemma: `oversized` holds exactly when one of the three size
thresholds is reached. -/
theorem oversized_iff (b : BoundingBox) :
    oversized b = true ↔
      (WARNING_SIZE_XY ≤ b.width ∨ WARNING_SIZE_XY ≤ b.depth ∨
        WARNING_SIZE_Z ≤ b.height) := by
  simp [oversized, or_assoc]

/-- A successful check loop only returns nodes of its input list, in input
order. -/
theorem checkLoop_sublist (m : List (String × ℚ)) (l : List SceneNode) :
    ∀ r, checkLoop m l = some r → r.Sublist l := by
  induction l with
  | nil =>
      intro r h
      rw [checkLoop] at h
      cases h
      exact List.Sublist.refl _
  | cons n rest ih =>
      intro r h
      rw [checkLoop] at h
      split at h
      · cases h
      · rename_i v hd
        by_cases h1 : SHRINKAGE_THRESHOLD < v
        · rw [if_pos h1] at h
          by_cases h2 : oversized n.boundingBox = true
          · rw [if_pos h2] at h
            cases hrec : checkLoop m rest with
            | none => rw [hrec] at h; cases h
            | some r0 =>
                rw [hrec] at h
                cases h
                exact List.Sublist.cons₂ n (ih r0 hrec)
          · rw [if_neg h2] at h
            exact List.Sublist.cons n (ih r h)
        · rw [if_neg h1] at h
          exact List.Sublist.cons n (ih r h)

/-- When every node of the list has its extruder position in the dict, the
check loop succeeds and returns exactly the nodes whose shrinkage exceeds the
threshold and whose bounding box is oversized, in input order. -/
theorem checkLoop_eq_filter (m : List (String × ℚ)) (l : List SceneNode)
    (h : ∀ n ∈ l, (dictGet m n.activeExtruderPosition).isSome) :
    checkLoop m l =
      some (l.filter (fun n => shrinkExceeds m n && oversized n.boundingBox)) := by
  induction l with
  | nil => rfl
  | cons n rest ih =>
      have hrest : ∀ x ∈ rest, (dictGet m x.activeExtruderPosition).isSome :=
        fun x hx => h x (List.mem_cons_of_mem _ hx)
      rw [checkLoop]
      cases hd : dictGet m n.activeExtruderPosition with
      | none =>
          have hn := h n (List.mem_cons_self n rest)
          rw [hd] at hn
          simp at hn
      | some v =>
          by_cases h1 : SHRINKAGE_THRESHOLD < v <;>
            by_cases h2 : oversized n.boundingBox = true <;>
            simp [List.filter_cons, shrinkExceeds, hd, ih hrest, h1, h2]

/-- When some node of the list has no entry for its extruder position in the
dict, the check loop fails (the Python loop raises `KeyError`). -/
theorem checkLoop_none (m : List (String × ℚ)) (l : List SceneNode)
    (h : ∃ n ∈ l, dictGet m n.activeExtruderPosition = none) :
    checkLoop m l = none := by
  induction l with
  | nil => simp at h
  | cons n rest ih =>
      rw [checkLoop]
      cases hd : dictGet m n.activeExtruderPosition with
      | none => rfl
      | some v =>
          rcases h with ⟨x, hx, hnone⟩
          rcases List.mem_cons.mp hx with rfl | hx2
          · rw [hd] at hnone; cases hnone
          · have hr : checkLoop m rest = none := ih ⟨x, hx2, hnone⟩
            simp [hr]

mutual
/-- The depth-first traversal lists every node value exactly as often as it
occurs in the scene tree: each node is visited exactly once. -/
theorem depthFirst_count (x : SceneNode) : ∀ t : SceneTree,
    (depthFirst t).count x = nodeCount x t
  | .mk n children => by
      rw [depthFirst, nodeCount, List.count_cons, depthFirstList_count x children,
        Nat.add_comm]
      congr 1
      simp [beq_iff_eq]

/-- Forest version of `depthFirst_count`. -/
theorem depthFirstList_count (x : SceneNode) : ∀ ts : List SceneTree,
    (depthFirstList ts).count x = nodeCountList x ts
  | [] => by rw [depthFirstList, nodeCountList]; rfl
  | t :: ts => by
      rw [depthFirstList, nodeCountList, List.count_append, depthFirst_count x t,
        depthFirstList_count x ts]
end

/-- C1: for every checker state, scene and material configuration in which
every sliceable node's extruder position has an entry in the material
shrinkage dict, the `runChecks` property returns `True` exactly when some
sliceable scene node has its extruder's material shrinkage strictly above 0.5
and a bounding box with width or depth at least 150 or height at least 100,
and returns `False` otherwise. -/
theorem runChecks_true_iff_risky (s : CheckerState)
    (stack : Option GlobalContainerStack) (t : SceneTree)
    (h : ∀ n ∈ sliceableNodes t,
      (dictGet (getMaterialShrinkage stack) n.activeExtruderPosition).isSome) :
    ((runChecks s stack t).map Prod.snd = some true ↔ riskyNodeExists stack t) ∧
    ((runChecks s stack t).map Prod.snd = some false ↔
      ¬ riskyNodeExists stack t) := by
  have hcheck : checkObjectsForShrinkage stack t =
      some ((sliceableNodes t).filter
        (fun n => shrinkExceeds (getMaterialShrinkage stack) n &&
          oversized n.boundingBox)) :=
    checkLoop_eq_filter _ _ h
  set L := (sliceableNodes t).filter
      (fun n => shrinkExceeds (getMaterialShrinkage stack) n &&
        oversized n.boundingBox) with hL
  have hrun : (runChecks s stack t).map Prod.snd = some (!L.isEmpty) := by
    rw [runChecks, hcheck]
    by_cases hl : L.isEmpty = true <;> simp [hl]
  have hiff : L ≠ [] ↔ riskyNodeExists stack t := by
    constructor
    · intro hne
      obtain ⟨n, hn⟩ := List.exists_mem_of_ne_nil L hne
      rw [hL, List.mem_filter] at hn
      obtain ⟨hmem, hq⟩ := hn
      rw [sliceableNodes, List.mem_filter] at hmem
      rw [Bool.and_eq_true] at hq
      exact ⟨n, hmem.1, hmem.2, (shrinkExceeds_iff _ _).mp hq.1,
        (oversized_iff _).mp hq.2⟩
    · rintro ⟨n, hmem, hsl, hs, hsize⟩
      refine List.ne_nil_of_mem (a := n) ?_
      rw [hL, List.mem_filter]
      refine ⟨?_, ?_⟩
      · rw [sliceableNodes, List.mem_filter]
        exact ⟨hmem, hsl⟩
      · rw [Bool.and_eq_true]
        exact ⟨(shrinkExceeds_iff _ _).mpr hs, (oversized_iff _).mpr hsize⟩
  constructor
  · rw [hrun, ← hiff]
    by_cases hn : L = [] <;> simp [hn]
  · rw [hrun, ← hiff]
    by_cases hn : L = [] <;> simp [hn]

/-- C1 witness: on the sample scene and stack the hypothesis holds and
`runChecks` returns `True`, as some sliceable node is risky. -/
theorem runChecks_true_iff_risky_witness :
    (runChecks initState (some sampleStack) sampleScene).map Prod.snd =
      some true := by
  have h := runChecks_true_iff_risky initState (some sampleStack) sampleScene
    (by decide)
  refine h.1.mpr ?_
  unfold riskyNodeExists
  exact ⟨sampleBigNode, by decide, by decide, ⟨1, by decide, by decide⟩, by decide⟩

/-- C2: counterexample evaluation: on a scene whose check finds a warning
node, `runChecks` returns `True`, yet `showWarnings` shows the happy message
and leaves the caution message hidden, because the `_has_warnings` flag is
never updated after construction. -/
theorem showWarnings_ignores_check_result :
    (runChecks initState (some sampleStack) sampleScene).map
      (fun p => (p.2, (showWarnings p.1).happyMessage.visible,
        (showWarnings p.1).cautionMessage.visible)) =
      some (true, true, false) := by decide

/-- C3: when every sliceable node's extruder position has an entry in the
material shrinkage dict, `checkObjectsForShrinkage` returns exactly the nodes
of the depth-first scene traversal that are sliceable, have material
shrinkage strictly above the threshold, and reach one of the bounding-box
size thresholds, in traversal order; all other nodes are excluded. -/
theorem checkObjectsForShrinkage_eq_filter (stack : Option GlobalContainerStack)
    (t : SceneTree)
    (h : ∀ n ∈ sliceableNodes t,
      (dictGet (getMaterialShrinkage stack) n.activeExtruderPosition).isSome) :
    checkObjectsForShrinkage stack t =
      some ((depthFirst t).filter (fun n =>
        n.isSliceable && shrinkExceeds (getMaterialShrinkage stack) n &&
          oversized n.boundingBox)) := by
  rw [checkObjectsForShrinkage, checkLoop_eq_filter _ _ h, sliceableNodes,
    List.filter_filter]
  congr 1
  refine List.filter_congr ?_
  intro x _
  cases x.isSliceable <;> cases shrinkExceeds (getMaterialShrinkage stack) x <;>
    cases oversized x.boundingBox <;> rfl

/-- C3 witness: on the sample scene and stack the check succeeds and returns
exactly the oversized sliceable node. -/
theorem checkObjectsForShrinkage_eq_filter_witness :
    checkObjectsForShrinkage (some sampleStack) sampleScene =
      some [sampleBigNode] := by
  rw [checkObjectsForShrinkage_eq_filter (some sampleStack) sampleScene
    (by decide)]
  decide

/-- C4: whenever `runChecks` returns `True`, the caution message text has
been set to the warning template around the names of exactly the warning
nodes joined by a comma and a space; when it returns `False` (empty warning
list) the caution message text is unchanged. -/
theorem runChecks_caution_text (s : CheckerState)
    (stack : Option GlobalContainerStack) (t : SceneTree) :
    (∀ s₂, runChecks s stack t = some (s₂, true) →
      ∃ l, checkObjectsForShrinkage stack t = some l ∧ l ≠ [] ∧
        s₂.cautionMessage.text =
          cautionText (String.intercalate ", " (l.map SceneNode.name))) ∧
    (∀ s₂, runChecks s stack t = some (s₂, false) →
      s₂.cautionMessage.text = s.cautionMessage.text) := by
  constructor
  · intro s₂ h2
    rw [runChecks] at h2
    split at h2
    · cases h2
    · rename_i l hc
      rw [hc]
      by_cases hl : l.isEmpty = true
      · rw [if_pos hl] at h2
        simp at h2
      · rw [if_neg hl] at h2
        cases h2
        exact ⟨l, rfl, by simpa using hl, rfl⟩
  · intro s₂ h2
    rw [runChecks] at h2
    split at h2
    · cases h2
    · rename_i l hc
      by_cases hl : l.isEmpty = true
      · rw [if_pos hl] at h2
        cases h2
        rfl
      · rw [if_neg hl] at h2
        simp at h2

/-- C4 witness: on the sample scene the check returns the single node named
"big" and the resulting state's caution text is the template around that
name. -/
theorem runChecks_caution_text_witness :
    ∃ l, checkObjectsForShrinkage (some sampleStack) sampleScene = some l ∧
      l ≠ [] ∧
      sampleRunState.cautionMessage.text =
        cautionText (String.intercalate ", " (l.map SceneNode.name)) :=
  (runChecks_caution_text initState (some sampleStack) sampleScene).1
    sampleRunState rfl

/-- C5: only sliceable nodes are ever reported: every node of a successful
warning list is sliceable, and `runChecks` can only return `True` through a
non-empty list of such sliceable nodes. -/
theorem warningNodes_sliceable (stack : Option GlobalContainerStack)
    (t : SceneTree) (l : List SceneNode)
    (hc : checkObjectsForShrinkage stack t = some l) :
    (∀ n ∈ l, n.isSliceable = true) ∧
    (∀ s s₂, runChecks s stack t = some (s₂, true) → l ≠ []) := by
  constructor
  · intro n hn
    rw [checkObjectsForShrinkage] at hc
    have hsub : l.Sublist (sliceableNodes t) := checkLoop_sublist _ _ l hc
    have hmem : n ∈ sliceableNodes t := hsub.subset hn
    rw [sliceableNodes, List.mem_filter] at hmem
    exact hmem.2
  · intro s s₂ h2
    rw [runChecks] at h2
    split at h2
    · cases h2
    · rename_i l2 hc2
      rw [hc] at hc2
      cases hc2
      by_cases hl : l.isEmpty = true
      · rw [if_pos hl] at h2
        simp at h2
      · simpa using hl

/-- C5 witness: the single reported node of the sample scene is sliceable. -/
theorem warningNodes_sliceable_witness : sampleBigNode.isSliceable = true :=
  (warningNodes_sliceable (some sampleStack) sampleScene [sampleBigNode]
    (by decide)).1 sampleBigNode (by decide)

/-- C6: `getMaterialShrinkage` returns the empty dict when there is no global
container stack; otherwise its keys are exactly the extruder positions of the
stack, every extruder maps to its material's shrinkage with `None` replaced
by 0, and a material without shrinkage percentage therefore never exceeds the
threshold. -/
theorem getMaterialShrinkage_spec :
    getMaterialShrinkage none = [] ∧
    ∀ stack : GlobalContainerStack,
      ((getMaterialShrinkage (some stack)).map Prod.fst =
        stack.extruders.map Prod.fst) ∧
      (∀ pos e, (pos, e) ∈ stack.extruders →
        (pos, e.materialShrinkage.getD 0) ∈ getMaterialShrinkage (some stack)) ∧
      (∀ pos e, (pos, e) ∈ stack.extruders → e.materialShrinkage = none →
        (pos, (0 : ℚ)) ∈ getMaterialShrinkage (some stack) ∧
          ¬ SHRINKAGE_THRESHOLD < (0 : ℚ)) := by
  refine ⟨rfl, fun stack => ⟨?_, ?_, ?_⟩⟩
  · rw [getMaterialShrinkage, List.map_map]
    rfl
  · intro pos e he
    rw [getMaterialShrinkage]
    exact List.mem_map.mpr ⟨(pos, e), he, rfl⟩
  · intro pos e he h0
    refine ⟨?_, by decide⟩
    rw [getMaterialShrinkage]
    refine List.mem_map.mpr ⟨(pos, e), he, ?_⟩
    rw [h0]
    rfl

/-- C6 witness: on the sample stack the extruder at position "1", whose
material has no shrinkage percentage, is mapped to 0, which does not exceed
the threshold. -/
theorem getMaterialShrinkage_spec_witness :
    ("1", (0 : ℚ)) ∈ getMaterialShrinkage (some sampleStack) ∧
      ¬ SHRINKAGE_THRESHOLD < (0 : ℚ) :=
  (getMaterialShrinkage_spec.2 sampleStack).2.2 "1" { materialShrinkage := none }
    (by decide) rfl

/-- C7: mutual exclusion of the two popups: after `showWarningMessage`,
`showHappyMessage` or `showWarnings`, at most one of the happy message and
the caution message is visible, because each show operation first hides the
other message. -/
theorem show_messages_mutually_exclusive (s : CheckerState) :
    ((showWarningMessage s).happyMessage.visible = false ∨
      (showWarningMessage s).cautionMessage.visible = false) ∧
    ((showHappyMessage s).happyMessage.visible = false ∨
      (showHappyMessage s).cautionMessage.visible = false) ∧
    ((showWarnings s).happyMessage.visible = false ∨
      (showWarnings s).cautionMessage.visible = false) := by
  refine ⟨Or.inl rfl, Or.inr rfl, ?_⟩
  by_cases hb : s.buttonView = true <;> by_cases hw : s.hasWarnings = true <;>
    simp [showWarnings, showWarningMessage, showHappyMessage, hb, hw]

/-- C8: the check is a single linear pass: the depth-first traversal visits
every scene node exactly as often as it occurs in the scene tree (once per
node), and a successful `checkObjectsForShrinkage` examines only nodes of
that single traversal, returning a sublist of it. -/
theorem check_single_pass (stack : Option GlobalContainerStack)
    (t : SceneTree) :
    (∀ x, (depthFirst t).count x = nodeCount x t) ∧
    (∀ l, checkObjectsForShrinkage stack t = some l →
      l.Sublist (depthFirst t)) := by
  refine ⟨fun x => depthFirst_count x t, fun l hl => ?_⟩
  rw [checkObjectsForShrinkage] at hl
  have h2 : (sliceableNodes t).Sublist (depthFirst t) := by
    rw [sliceableNodes]
    exact List.filter_sublist _
  exact (checkLoop_sublist _ _ l hl).trans h2

/-- C8 witness: on the sample scene, the traversal counts agree for the
oversized node and the successful check's result is a sublist of the
traversal. -/
theorem check_single_pass_witness :
    (depthFirst sampleScene).count sampleBigNode =
      nodeCount sampleBigNode sampleScene ∧
    List.Sublist [sampleBigNode] (depthFirst sampleScene) :=
  ⟨(check_single_pass (some sampleStack) sampleScene).1 sampleBigNode,
    (check_single_pass (some sampleStack) sampleScene).2 [sampleBigNode]
      (by decide)⟩

/-- C9: the shrinkage lookup is partial: when some sliceable node's extruder
position has no entry in the shrinkage dict, the check fails with a
`KeyError` (modelled as `none`); in particular it fails whenever the global
container stack is absent while the scene contains a sliceable node. -/
theorem check_fails_on_missing_key (stack : Option GlobalContainerStack)
    (t : SceneTree) :
    ((∃ n ∈ sliceableNodes t,
        dictGet (getMaterialShrinkage stack) n.activeExtruderPosition = none) →
      checkObjectsForShrinkage stack t = none) ∧
    (sliceableNodes t ≠ [] → checkObjectsForShrinkage none t = none) := by
  constructor
  · intro h
    rw [checkObjectsForShrinkage]
    exact checkLoop_none _ _ h
  · intro hne
    rw [checkObjectsForShrinkage]
    refine checkLoop_none _ _ ?_
    obtain ⟨n, hn⟩ := List.exists_mem_of_ne_nil _ hne
    exact ⟨n, hn, rfl⟩

/-- C9 witness: the sample scene has a sliceable node, so with no global
container stack the check fails instead of returning a result. -/
theorem check_fails_on_missing_key_witness :
    checkObjectsForShrinkage none sampleScene = none :=
  (check_fails_on_missing_key none sampleScene).2 (by decide)

/-- C10: frame property of `runChecks`: a successful run leaves the
`_has_warnings` flag, the happy message, the caution message's visibility and
the button view unchanged; when it returns `False` the whole state is
unchanged; and `_has_warnings` is `False` at construction. -/
theorem runChecks_frame (s : CheckerState) (stack : Option GlobalContainerStack)
    (t : SceneTree) (s₂ : CheckerState) (b : Bool)
    (h : runChecks s stack t = some (s₂, b)) :
    s₂.hasWarnings = s.hasWarnings ∧ s₂.happyMessage = s.happyMessage ∧
    s₂.cautionMessage.visible = s.cautionMessage.visible ∧
    s₂.buttonView = s.buttonView ∧ (b = false → s₂ = s) ∧
    initState.hasWarnings = false := by
  rw [runChecks] at h
  split at h
  · cases h
  · rename_i l hc
    by_cases hl : l.isEmpty = true
    · rw [if_pos hl] at h
      cases h
      exact ⟨rfl, rfl, rfl, rfl, fun _ => rfl, rfl⟩
    · rw [if_neg hl] at h
      cases h
      refine ⟨rfl, rfl, rfl, rfl, ?_, rfl⟩
      intro hb
      cases hb

/-- C10 witness: on the sample scene, `runChecks` from the initial state
returns `True` and only the caution message text differs in the new state. -/
theorem runChecks_frame_witness :
    sampleRunState.hasWarnings = initState.hasWarnings ∧
    sampleRunState.happyMessage = initState.happyMessage ∧
    sampleRunState.cautionMessage.visible = initState.cautionMessage.visible ∧
    sampleRunState.buttonView = initState.buttonView ∧
    initState.hasWarnings = false := by
  have h := runChecks_frame initState (some sampleStack) sampleScene
    sampleRunState true rfl
  exact ⟨h.1, h.2.1, h.2.2.1, h.2.2.2.1, h.2.2.2.2.2⟩

end ModelChecker
